import Mathlib

/-!
Verification development for the similarity-scoring core of the
Seminar-Process-Analytics-Replication repository.

The embedding models:
  * `src/utils/metrics.py` — the three dataframe similarity metrics and the
    combined `dataframe_similarity` entry point;
  * `src/utils/helper.py` — `extract_sql_statement`;
  * `src/utils/apps.py` — the `SimpleApp` orchestration pipeline
    (`get_sql_query` → `run_sql_query` → `calculate_metrics` → `invoke`).

Modelling conventions:
  * A pandas DataFrame is a `DataFrame`: an ordered list of column names and an
    ordered list of rows, each row a list of cell values parallel to the columns.
    Cell values are opaque text or a missing marker (`Scalar.na`, pandas NaN), as
    the pipeline loads everything with `dtype='object'`.  The non-reflexive
    equality of the Python float NaN is outside the model; theorems that depend
    on cell equality carry a no-missing-values hypothesis where it matters.
  * Python exceptions are modelled with `Except PyExn`; a `PyExn` carries the
    exception class name and message.  Exception message texts are modelled by
    fixed canonical strings (the exact Python wording varies across versions);
    theorems about exceptions are about the class name and the fact of raising.
  * Python `round(x, 3)` is modelled as exact rational round-half-to-even at the
    third decimal (`round3`); binary floating-point representation error is
    outside the model.  Python integer division `tp / (tp + fp)` on ints yields
    a float; it is modelled as exact rational division.
  * `pandas.sort_values` sorts rows and returns a new frame; the embedded sort
    is an insertion sort (pandas uses an unstable quicksort by default, but no
    similarity result depends on the resulting row order, so only "some
    permutation sorted by the keys" matters).  `reset_index(drop=True)` only
    renumbers the positional index, which this model has no analogue of.
-/

namespace SqlEval

/-! ## Cell values and data frames -/

/-- A scalar cell value: opaque text, or the missing-value marker (pandas NaN). -/
inductive Scalar where
  | na : Scalar
  | str : String → Scalar
deriving DecidableEq

/-- A cell of a data frame.  Input data holds only `cell` values; the `tup`
constructor represents the Python tuples stored in the internally added
`combined` column (`tuple(row)` over a row of scalar cells). -/
inductive Value where
  | cell : Scalar → Value
  | tup : List Scalar → Value
deriving DecidableEq

/-- A pandas DataFrame: ordered column names and ordered rows; each row lists
its cell values in column order. -/
structure DataFrame where
  cols : List String
  rows : List (List Value)
deriving DecidableEq

/-- Exception outcome: Python exception class name and message. -/
structure PyExn where
  name : String
  msg : String
deriving DecidableEq

instance {ε α : Type} [DecidableEq ε] [DecidableEq α] : DecidableEq (Except ε α) :=
  fun a b =>
  match a, b with
  | .ok x, .ok y =>
    if h : x = y then .isTrue (by rw [h]) else .isFalse (by simp [h])
  | .error x, .error y =>
    if h : x = y then .isTrue (by rw [h]) else .isFalse (by simp [h])
  | .ok _, .error _ => .isFalse (by simp)
  | .error _, .ok _ => .isFalse (by simp)

/-- `set(l1) == set(l2)` for two lists of column names: mutual inclusion,
ignoring order and duplicates. -/
def colSetEq (l1 l2 : List String) : Bool :=
  decide ((∀ c ∈ l1, c ∈ l2) ∧ (∀ c ∈ l2, c ∈ l1))

/-- `set(df1.columns) == set(df2.columns)`. -/
def sameColumnSet (d1 d2 : DataFrame) : Bool :=
  colSetEq d1.cols d2.cols

/-- The string returned by all three metric functions when the column sets
differ (metrics.py lines 24, 63, 98). -/
def mismatchMsg : String :=
  "Can\x27t calculate Precision, Recall and F1. DataFrames must have the same columns"

/-! ## Row sorting (`sort_values`) -/

/-- Code-point comparison of strings, as Python compares `str` values. -/
def charListLt : List Char → List Char → Bool
  | [], [] => false
  | [], _ :: _ => true
  | _ :: _, [] => false
  | c :: cs, d :: ds =>
    if c.toNat < d.toNat then true
    else if d.toNat < c.toNat then false
    else charListLt cs ds

/-- Three-way comparison of scalar cells for row sorting: strings compare by
code point, missing values sort last (pandas `na_position='last'`). -/
def scalarCmp : Scalar → Scalar → Ordering
  | .str a, .str b =>
    if charListLt a.data b.data then .lt
    else if charListLt b.data a.data then .gt
    else .eq
  | .str _, .na => .lt
  | .na, .str _ => .gt
  | .na, .na => .eq

/-- Lexicographic comparison of scalar lists. -/
def scalarListCmp : List Scalar → List Scalar → Ordering
  | [], [] => .eq
  | [], _ :: _ => .lt
  | _ :: _, [] => .gt
  | a :: as, b :: bs =>
    match scalarCmp a b with
    | .eq => scalarListCmp as bs
    | o => o

/-- Three-way comparison of cells.  The `tup` cases are arbitrary: the
`combined` column is never used as a sort key in the source. -/
def valueCmp : Value → Value → Ordering
  | .cell a, .cell b => scalarCmp a b
  | .cell _, .tup _ => .lt
  | .tup _, .cell _ => .gt
  | .tup a, .tup b => scalarListCmp a b

/-- Lexicographic comparison of sort keys. -/
def keyCmp : List Value → List Value → Ordering
  | [], [] => .eq
  | [], _ :: _ => .lt
  | _ :: _, [] => .gt
  | a :: as, b :: bs =>
    match valueCmp a b with
    | .eq => keyCmp as bs
    | o => o

/-- The value of the column named `c` in a row of a frame with columns `cols`
(missing columns never arise after the column-set guards; they default to NaN). -/
def rowVal (cols : List String) (row : List Value) (c : String) : Value :=
  match cols.indexOf? c with
  | some i => row.getD i (Value.cell .na)
  | none => Value.cell .na

/-- The sort key of a row: its values in the named by-columns, in by-order. -/
def sortKey (byCols cols : List String) (row : List Value) : List Value :=
  byCols.map (rowVal cols row)

/-- Row comparison used by `sort_values(by=byCols)`. -/
def rowLE (byCols cols : List String) (r s : List Value) : Bool :=
  match keyCmp (sortKey byCols cols r) (sortKey byCols cols s) with
  | .gt => false
  | _ => true

/-- Ordered insertion, for the structural sort below. -/
def insertOrd {α : Type} (le : α → α → Bool) (a : α) : List α → List α
  | [] => [a]
  | b :: bs => if le a b then a :: b :: bs else b :: insertOrd le a bs

/-- Insertion sort (structurally recursive, hence kernel-computable). -/
def insSort {α : Type} (le : α → α → Bool) : List α → List α
  | [] => []
  | a :: as => insertOrd le a (insSort le as)

/-- `df.sort_values(by=byCols).reset_index(drop=True)`: a NEW frame whose rows
are sorted by the values of the named columns; the input frame is untouched. -/
def sortValues (df : DataFrame) (byCols : List String) : DataFrame :=
  ⟨df.cols, insSort (rowLE byCols df.cols) df.rows⟩

/-! ## Row sets and the precision/recall/F1 arithmetic -/

/-- `set(df['combined'])` after `df['combined'] = df.apply(lambda row: tuple(row),
axis=1)`: each row becomes the tuple of its values in the frame's own column
order, so the set of combined values is in exact correspondence with the set of
the frame's rows. -/
def rowSet (df : DataFrame) : Finset (List Value) := df.rows.toFinset

/-- `precision = tp / (tp + fp) if (tp + fp) > 0 else 0`. -/
def precisionOf (tp fp : ℕ) : ℚ :=
  if 0 < tp + fp then (tp : ℚ) / ((tp : ℚ) + (fp : ℚ)) else 0

/-- `recall = tp / (tp + fn) if (tp + fn) > 0 else 0`. -/
def recallOf (tp fn : ℕ) : ℚ :=
  if 0 < tp + fn then (tp : ℚ) / ((tp : ℚ) + (fn : ℚ)) else 0

/-- `f1 = 2 * (precision * recall) / (precision + recall) if (precision + recall)
> 0 else 0`. -/
def f1Of (p r : ℚ) : ℚ :=
  if 0 < p + r then 2 * (p * r) / (p + r) else 0

/-- Floor of a rational (den is positive, so flooring integer division). -/
def qfloor (q : ℚ) : ℤ := Int.fdiv q.num q.den

/-- Round to the nearest integer, ties to even (Python `round`). -/
def roundHalfEven (q : ℚ) : ℤ :=
  let f := qfloor q
  let r := q - (f : ℚ)
  if r < 1/2 then f
  else if (1 : ℚ)/2 < r then f + 1
  else if f % 2 = 0 then f else f + 1

/-- Python `round(x, 3)`, as exact rational rounding. -/
def round3 (q : ℚ) : ℚ := ((roundHalfEven (q * 1000) : ℚ)) / 1000

/-- What a metric function returns: either the schema-mismatch string, or the
`{'precision': _, 'recall': _, 'f1': _}` dict (fields already rounded). -/
inductive MetricVal where
  | strRes : String → MetricVal
  | scores : ℚ → ℚ → ℚ → MetricVal
deriving DecidableEq

/-- The last six lines shared by the set-based metrics: derive the three scores
from the tp/fp/fn counts and round each to three decimals. -/
def scoresOf (tp fp fn : ℕ) : MetricVal :=
  let p := precisionOf tp fp
  let r := recallOf tp fn
  let f1 := f1Of p r
  .scores (round3 p) (round3 r) (round3 f1)

/-- tp/fp/fn from the two sets of row tuples: tp the intersection, fp the
elements only in the first set, fn the elements only in the second set
(metrics.py lines 37–44). -/
def setScores {α : Type} [DecidableEq α] (s1 s2 : Finset α) : MetricVal :=
  scoresOf (s1 ∩ s2).card (s1 \ s2).card (s2 \ s1).card

/-! ## `dataframe_similiarity_full` (metrics.py lines 20–51) -/

/-- `dataframe_similiarity_full(df1, df2)`: guard that the column SETS agree,
sort both frames' rows by `df1`'s column list, form the set of row tuples of
each frame (each tuple in its frame's own column order), and score the set
overlap.  Returns the mismatch string instead of a dict when the guard fails. -/
def dataframe_similiarity_full (df1 df2 : DataFrame) : MetricVal :=
  if sameColumnSet df1 df2 = false then .strRes mismatchMsg
  else
    setScores (rowSet (sortValues df1 df1.cols)) (rowSet (sortValues df2 df1.cols))

/-! ## `dataframe_similarity_relaxed` (metrics.py lines 55–90) -/

/-- `KeyError` raised by `df.drop` when the label is absent. -/
def keyErr (c : String) : PyExn :=
  ⟨"KeyError", "[\x27" ++ c ++ "\x27] not found in axis"⟩

/-- `df.drop([c], axis=1)`: a NEW frame without the named column, or a
`KeyError` when the column is absent. -/
def dropColumn (df : DataFrame) (c : String) : Except PyExn DataFrame :=
  if c ∈ df.cols then
    .ok ⟨df.cols.filter (fun c2 => decide (c2 ≠ c)),
         df.rows.map (fun row =>
           ((df.cols.zip row).filter (fun p => decide (p.1 ≠ c))).map Prod.snd)⟩
  else .error (keyErr c)

/-- `dataframe_similarity_relaxed(df1, df2)`: drop `activity_id` from both
frames FIRST (raising `KeyError` when absent — there is no guard before the
drop), then proceed exactly as the full metric on the remaining columns. -/
def dataframe_similarity_relaxed (df1 df2 : DataFrame) : Except PyExn MetricVal := do
  let d1 ← dropColumn df1 "activity_id"
  let d2 ← dropColumn df2 "activity_id"
  if sameColumnSet d1 d2 = false then return .strRes mismatchMsg
  else
    return setScores (rowSet (sortValues d1 d1.cols)) (rowSet (sortValues d2 d1.cols))

/-! ## `dataframe_similiarity_textual` (metrics.py lines 94–127) -/

/-- Levenshtein edit distance with unit-cost insertion, deletion and
substitution — the `distance` function of the python-Levenshtein package. -/
def editDistance : List Char → List Char → ℕ
  | [], ys => ys.length
  | x :: xs, [] => (x :: xs).length
  | x :: xs, y :: ys =>
    if x = y then editDistance xs ys
    else 1 + min (editDistance xs ys)
              (min (editDistance (x :: xs) ys) (editDistance xs (y :: ys)))
termination_by xs ys => xs.length + ys.length

/-- `df.fillna("")` on a cell: missing values become the empty string. -/
def fillNaValue : Value → Value
  | .cell .na => .cell (.str "")
  | v => v

/-- `df.fillna("", inplace=True)`, as the frame transformation it performs. -/
def fillNa (df : DataFrame) : DataFrame :=
  ⟨df.cols, df.rows.map (fun row => row.map fillNaValue)⟩

/-- `TypeError` with a canonical message. -/
def typeErr (m : String) : PyExn := ⟨"TypeError", m⟩

/-- `";".join(row)`: join the row's cells with `";"`; Python raises `TypeError`
when an element is not a string (a NaN, or a tuple). -/
def joinCells (row : List Value) : Except PyExn String :=
  if row.all (fun v => match v with | .cell (.str _) => true | _ => false) then
    .ok (String.intercalate ";"
      (row.map (fun v => match v with | .cell (.str s) => s | _ => "")))
  else .error (typeErr "sequence item: expected str instance")

/-- `ZeroDivisionError` raised by `distance(label, pred)/max(len(label), len(pred))`
when both strings are empty. -/
def zeroDivErr : PyExn := ⟨"ZeroDivisionError", "division by zero"⟩

/-- `ValueError` raised by `min([])`. -/
def minEmptyErr : PyExn := ⟨"ValueError", "min() arg is an empty sequence"⟩

/-- The normalised edit distance `distance(label, pred) / max(len(label), len(pred))`
as a rational (only meaningful when the maximum is nonzero). -/
def normalizedRatio (label pred : String) : ℚ :=
  (editDistance label.data pred.data : ℚ) / ((max label.length pred.length : ℕ) : ℚ)

/-- One entry of `similarity_list`: the normalised edit distance, or the
`ZeroDivisionError` Python raises when both strings are empty — the source has
no guard against a zero divisor. -/
def normalizedDistance (label pred : String) : Except PyExn ℚ :=
  if max label.length pred.length = 0 then .error zeroDivErr
  else .ok (normalizedRatio label pred)

/-- `min(similarity_list)`: Python's `min` of a list, `ValueError` when empty. -/
def pyMinList : List ℚ → Except PyExn ℚ
  | [] => .error minEmptyErr
  | x :: xs => .ok (xs.foldl min x)

/-- One iteration of the outer `for label in labels` loop: build
`similarity_list` over all preds, take `similarity_score = 1 - min(...)`, and
bump tp or fp according to `similarity_score >= threshold`. -/
def textualStep (preds : List String) (threshold : ℚ) (acc : ℕ × ℕ)
    (label : String) : Except PyExn (ℕ × ℕ) := do
  let ratios ← preds.mapM (fun pred => normalizedDistance label pred)
  let m ← pyMinList ratios
  if threshold ≤ 1 - m then return (acc.1 + 1, acc.2)
  else return (acc.1, acc.2 + 1)

/-- The body of the textual metric after sorting and filling: render `labels`
and `preds` (joining each row's values with `";"`), run the label loop, set
`fn = max(len(labels), len(preds)) - tp` (tp never exceeds `len(labels)`, so
the Python subtraction is the truncated one), and derive the scores. -/
def textualBody (d1 d2 : DataFrame) (threshold : ℚ) : Except PyExn MetricVal := do
  let labels ← d1.rows.mapM joinCells
  let preds ← d2.rows.mapM joinCells
  let counts ← labels.foldlM (textualStep preds threshold) (0, 0)
  let tp := counts.1
  let fp := counts.2
  let fn := max labels.length preds.length - tp
  return scoresOf tp fp fn

/-- `dataframe_similiarity_textual(df1, df2, threshold)`: guard the column sets
(returning the mismatch string), sort both frames' rows by `df1`'s columns,
fill missing values with `""` in `df2` only, and run the fuzzy label-by-label
loop. -/
def dataframe_similiarity_textual (df1 df2 : DataFrame) (threshold : ℚ) :
    Except PyExn MetricVal :=
  if sameColumnSet df1 df2 = false then .ok (.strRes mismatchMsg)
  else
    textualBody (sortValues df1 df1.cols) (fillNa (sortValues df2 df1.cols)) threshold

/-! ## `dataframe_similarity` (metrics.py lines 8–16) -/

/-- The nine-key report `dataframe_similarity` builds:
precision, recall, f1 for the full, relaxed and textual metrics, in that order. -/
structure Report where
  precision : ℚ
  «recall» : ℚ
  f1 : ℚ
  relaxed_precision : ℚ
  relaxed_recall : ℚ
  relaxed_f1 : ℚ
  textual_precision : ℚ
  textual_recall : ℚ
  textual_f1 : ℚ
deriving DecidableEq

/-- `TypeError` raised when the result dict subscripts a mismatch STRING
(`result_full['precision']` on a `str`). -/
def subscriptTypeErr : PyExn := typeErr "string indices must be integers"

/-- `dataframe_similarity(df1, df2)`: run the three metrics (the relaxed and
textual calls can raise, in that order), then build the nine-key dict.  The
dict literal subscripts `result_full` first, so if any metric returned the
schema-mismatch string instead of a dict, the first such subscript raises
`TypeError` — the mismatch is NOT surfaced as a report by this entry point. -/
def dataframe_similarity (df1 df2 : DataFrame) : Except PyExn Report := do
  let result_full := dataframe_similiarity_full df1 df2
  let result_relax ← dataframe_similarity_relaxed df1 df2
  let result_textual ← dataframe_similiarity_textual df1 df2 (3/4)
  match result_full, result_relax, result_textual with
  | .scores p r f, .scores p2 r2 f2, .scores p3 r3 f3 =>
    return ⟨round3 p, round3 r, round3 f, round3 p2, round3 r2, round3 f2,
            round3 p3, round3 r3, round3 f3⟩
  | .strRes _, _, _ => throw subscriptTypeErr
  | _, .strRes _, _ => throw subscriptTypeErr
  | _, _, .strRes _ => throw subscriptTypeErr

/-! ## `extract_sql_statement` (helper.py lines 57–64)

The source compiles
`(SELECT|INSERT|...|WHERE|FROM)\b.*?;` with `re.IGNORECASE | re.DOTALL` and
calls `.search(text)`, returning `match.group(0)` on a hit and the input text
unchanged otherwise.  The embedding mirrors the regex engine: scan start
positions left to right; at each position try the alternatives in pattern
order, requiring a case-insensitive keyword match followed by a word boundary;
the lazy `.*?;` (with `.` matching newlines under DOTALL) then extends the
match to the FIRST `;` at or after the keyword's end.  ASCII case folding and
the ASCII `\w` class are used, as all claims and the pattern itself are ASCII. -/

/-- The keyword alternatives of the pattern, in pattern order. -/
def sqlKeywords : List String :=
  ["SELECT", "INSERT", "UPDATE", "DELETE", "CREATE", "ALTER", "DROP", "GRANT",
   "REVOKE", "TRUNCATE", "MERGE", "CALL", "EXPLAIN", "SHOW", "USE", "IS",
   "NOT", "AND", "NULL", "UNION", "ALL", "WHERE", "FROM"]

/-- The regex word class `\w` (ASCII): letters, digits, underscore. -/
def isWordChar (c : Char) : Bool := c.isAlphanum || c == '_'

/-- Uppercase a character list (ASCII case-insensitive comparison). -/
def upperChars (l : List Char) : List Char := l.map Char.toUpper

/-- Does keyword `kw` match at position `p` of `t`, case-insensitively and with
a trailing word boundary `\b` (the keyword's last character is a word
character, so the boundary holds exactly when the next character is absent or
is not a word character)? -/
def matchKeywordAt (t : List Char) (p : ℕ) (kw : String) : Bool :=
  (upperChars ((t.drop p).take kw.data.length) == upperChars kw.data) &&
  (match t.get? (p + kw.data.length) with
   | none => true
   | some c => !isWordChar c)

/-- Index of the first `;` at or after position `i`. -/
def findSemiFrom (t : List Char) (i : ℕ) : Option ℕ :=
  ((t.drop i).findIdx? (fun c => c == ';')).map (fun j => i + j)

/-- The alternation at one start position: try each keyword in pattern order,
and accept the first that matches (with its boundary) AND has a terminating
`;` at or after its end; yield the keyword length and the index of that `;`.
A keyword that matches but has no following `;` makes the engine backtrack to
the next alternative, which the `findSome?` skip models. -/
def keywordHitAt (t : List Char) (p : ℕ) : Option (ℕ × ℕ) :=
  sqlKeywords.findSome? (fun kw =>
    if matchKeywordAt t p kw then
      (findSemiFrom t (p + kw.data.length)).map (fun q => (kw.data.length, q))
    else none)

/-- `re.search`: try start positions left to right; `fuel` bounds the scan
(called with `t.length + 1`, enough to reach every position). -/
def searchSql (t : List Char) : ℕ → ℕ → Option (ℕ × ℕ)
  | _, 0 => none
  | p, fuel + 1 =>
    match keywordHitAt t p with
    | some (_, q) => some (p, q)
    | none => searchSql t (p + 1) fuel

/-- `extract_sql_statement(text)`: the matched substring (keyword through the
terminating `;`, inclusive) on a hit, the input text unchanged otherwise;
never raises. -/
def extract_sql_statement (text : String) : String :=
  match searchSql text.data 0 (text.data.length + 1) with
  | some (p, q) => String.mk ((text.data.drop p).take (q + 1 - p))
  | none => text

/-! ## `SimpleApp` (apps.py lines 8–60)

The langgraph `StateGraph` built by `invoke` is linear:
agent → sqlexecuter → dfcomparator, so the run is the sequential composition of
the three node functions on the state dict.  External collaborators are
parameters: `llm` models `self.llm_model.invoke(...).content` (an opaque total
function on text), `db` models `run_query_and_return_df(path_to_db, query)`
(returns a frame or raises), and `groundTruth` models
`pd.read_csv(path_to_groud_truth_eventlog, dtype='object')`, assumed to load. -/

/-- What `state['sqlexecuter']` holds after the executor node: the result frame
on success, or the tagged `SQL_ERROR` string on failure. -/
inductive ExecCell where
  | errStr : String → ExecCell
  | df : DataFrame → ExecCell
deriving DecidableEq

/-- What `state['result']` holds after the comparator node: the empty dict
`{}`, or the full nine-key report. -/
inductive ReportVal where
  | empty : ReportVal
  | full : Report → ReportVal
deriving DecidableEq

/-- The state dict.  Keys other than `messages` are absent until their node
runs; reading an absent key raises `KeyError`. -/
structure AgentState where
  messages : List String
  agent_response : Option String
  sqlexecuter : Option ExecCell
  result : Option ReportVal
deriving DecidableEq

/-- `KeyError` on a missing dict key. -/
def keyAbsentErr (k : String) : PyExn := ⟨"KeyError", k⟩

/-- `IndexError` from `messages[-1]` on an empty list. -/
def indexErr : PyExn := ⟨"IndexError", "list index out of range"⟩

/-- `SimpleApp.get_sql_query`: read the last message, call the model, store its
response text. -/
def get_sql_query (llm : String → String) (state : AgentState) :
    Except PyExn AgentState :=
  match state.messages.getLast? with
  | none => .error indexErr
  | some user_input =>
    .ok { state with agent_response := some (llm user_input) }

/-- The error string stored by the executor's except-clause:
`f"SQL_ERROR: {type(e).__name__}: {str(e)}"`. -/
def sqlErrorString (e : PyExn) : String :=
  "SQL_ERROR: " ++ e.name ++ ": " ++ e.msg

/-- `SimpleApp.run_sql_query`: extract the SQL statement from the stored model
response, execute it, and store either the result frame or the tagged error
string — the `except Exception` clause converts ANY execution exception, so
this node itself never propagates one (the `print` side effect is not
modelled). -/
def run_sql_query (db : String → Except PyExn DataFrame) (state : AgentState) :
    Except PyExn AgentState := do
  let ar ← match state.agent_response with
    | some s => pure s
    | none => throw (keyAbsentErr "agent_response")
  match db (extract_sql_statement ar) with
  | .ok d => return { state with sqlexecuter := some (.df d) }
  | .error e => return { state with sqlexecuter := some (.errStr (sqlErrorString e)) }

/-- `SimpleApp.calculate_metrics`: when the executor stored a frame (anything
that is not a `str`), score it against the ground truth — any exception from
`dataframe_similarity` propagates, there is no try/except here; when it stored
the error string, store the empty report `{}`. -/
def calculate_metrics (groundTruth : DataFrame) (state : AgentState) :
    Except PyExn AgentState := do
  let ex ← match state.sqlexecuter with
    | some c => pure c
    | none => throw (keyAbsentErr "sqlexecuter")
  match ex with
  | .df d => do
    let r ← dataframe_similarity groundTruth d
    return { state with result := some (.full r) }
  | .errStr _ => return { state with result := some .empty }

/-- `SimpleApp.invoke`: the compiled linear workflow
agent → sqlexecuter → dfcomparator run on the given state. -/
def invoke (llm : String → String) (db : String → Except PyExn DataFrame)
    (groundTruth : DataFrame) (state : AgentState) : Except PyExn AgentState := do
  let s1 ← get_sql_query llm state
  let s2 ← run_sql_query db s1
  calculate_metrics groundTruth s2

/-! ## Heap model of the metric functions

The frame-effect claim is about Python object mutation, so the three metric
functions are replayed over an explicit heap of DataFrame objects.  References
are naturals; `fresh` is the allocation counter (every live reference is below
it).  Pandas semantics mirrored here: `sort_values`, `reset_index` and `drop`
return NEW objects; the column assignment `df['combined'] = ...` and
`df.fillna("", inplace=True)` mutate the object their receiver refers to.
The local rebindings `df1 = df1.sort_values(...)` etc. make every in-place
operation in the source hit one of the freshly allocated copies. -/

/-- A heap of DataFrame objects, addressed by naturals. -/
def Heap : Type := ℕ → DataFrame

/-- Write one heap cell. -/
def Heap.write (h : Heap) (r : ℕ) (d : DataFrame) : Heap :=
  fun i => if i = r then d else h i

/-- The scalar content of a cell, for forming the `combined` tuples (the frames
this is applied to are fresh sorted copies of input data, whose cells are all
scalars). -/
def cellScalar : Value → Scalar
  | .cell s => s
  | .tup _ => .na

/-- `df['combined'] = df.apply(lambda row: tuple(row), axis=1)`: append a
`combined` column holding each row's value tuple. -/
def addCombined (d : DataFrame) : DataFrame :=
  ⟨d.cols ++ ["combined"], d.rows.map (fun row => row ++ [Value.tup (row.map cellScalar)])⟩

/-- `set(df['combined'])`: the set of values of the last (`combined`) column. -/
def combinedSet (d : DataFrame) : Finset Value :=
  (d.rows.map (fun row => row.getLastD (Value.cell .na))).toFinset

/-- `dataframe_similiarity_full` replayed on the heap: `r1`, `r2` are the
caller's two frame objects; the sorted copies are allocated at `fresh` and
`fresh + 1` and the `combined` assignments mutate those copies in place. -/
def dataframe_similiarity_full_heap (h : Heap) (fresh r1 r2 : ℕ) :
    Heap × ℕ × MetricVal :=
  if sameColumnSet (h r1) (h r2) = false then (h, fresh, .strRes mismatchMsg)
  else
    let a1 := fresh
    let h1 := h.write a1 (sortValues (h r1) (h r1).cols)
    let a2 := fresh + 1
    let h2 := h1.write a2 (sortValues (h r2) (h r1).cols)
    let h3 := h2.write a1 (addCombined (h2 a1))
    let h4 := h3.write a2 (addCombined (h3 a2))
    (h4, fresh + 2, setScores (combinedSet (h4 a1)) (combinedSet (h4 a2)))

/-- `dataframe_similarity_relaxed` replayed on the heap: the dropped copies are
allocated at `fresh`, `fresh + 1`, the sorted copies at `fresh + 2`,
`fresh + 3`; the `combined` assignments mutate the sorted copies.  A `KeyError`
from either drop aborts with the heap as it stands. -/
def dataframe_similarity_relaxed_heap (h : Heap) (fresh r1 r2 : ℕ) :
    Heap × ℕ × Except PyExn MetricVal :=
  match dropColumn (h r1) "activity_id" with
  | .error e => (h, fresh, .error e)
  | .ok d1 =>
    let a1 := fresh
    let h1 := h.write a1 d1
    match dropColumn (h1 r2) "activity_id" with
    | .error e => (h1, fresh + 1, .error e)
    | .ok d2 =>
      let a2 := fresh + 1
      let h2 := h1.write a2 d2
      if sameColumnSet (h2 a1) (h2 a2) = false then
        (h2, fresh + 2, .ok (.strRes mismatchMsg))
      else
        let a3 := fresh + 2
        let h3 := h2.write a3 (sortValues (h2 a1) (h2 a1).cols)
        let a4 := fresh + 3
        let h4 := h3.write a4 (sortValues (h3 a2) (h2 a1).cols)
        let h5 := h4.write a3 (addCombined (h4 a3))
        let h6 := h5.write a4 (addCombined (h5 a4))
        (h6, fresh + 4, .ok (setScores (combinedSet (h6 a3)) (combinedSet (h6 a4))))

/-- `dataframe_similiarity_textual` replayed on the heap: the sorted copies are
allocated at `fresh` and `fresh + 1`; `df2.fillna("", inplace=True)` mutates
the copy at `fresh + 1` in place; the label loop then reads the copies. -/
def dataframe_similiarity_textual_heap (h : Heap) (fresh r1 r2 : ℕ)
    (threshold : ℚ) : Heap × ℕ × Except PyExn MetricVal :=
  if sameColumnSet (h r1) (h r2) = false then (h, fresh, .ok (.strRes mismatchMsg))
  else
    let a1 := fresh
    let h1 := h.write a1 (sortValues (h r1) (h r1).cols)
    let a2 := fresh + 1
    let h2 := h1.write a2 (sortValues (h r2) (h r1).cols)
    let h3 := h2.write a2 (fillNa (h2 a2))
    (h3, fresh + 2, textualBody (h3 a1) (h3 a2) threshold)

/-! ## Helper lemmas -/

/-- Reading a heap cell other than the one written is unchanged. -/
theorem Heap.write_ne (h : Heap) (r : ℕ) (d : DataFrame) (i : ℕ) (hne : i ≠ r) :
    (h.write r d) i = h i := if_neg hne

/-- Ordered insertion permutes. -/
theorem insertOrd_perm {α : Type} (le : α → α → Bool) (a : α) :
    ∀ l : List α, (insertOrd le a l).Perm (a :: l)
  | [] => List.Perm.refl _
  | b :: bs => by
    by_cases h : le a b
    · simp [insertOrd, h]
    · simp only [insertOrd, h, if_neg]
      exact ((insertOrd_perm le a bs).cons b).trans (List.Perm.swap a b bs)

/-- Insertion sort permutes. -/
theorem insSort_perm {α : Type} (le : α → α → Bool) :
    ∀ l : List α, (insSort le l).Perm l
  | [] => List.Perm.refl _
  | a :: as => (insertOrd_perm le a (insSort le as)).trans ((insSort_perm le as).cons a)

/-- Sorting the rows does not change the set of row tuples. -/
theorem rowSet_sortValues (df : DataFrame) (byCols : List String) :
    rowSet (sortValues df byCols) = df.rows.toFinset :=
  List.toFinset_eq_of_perm _ _ (insSort_perm _ _)

/-- Bind of a success, for unfolding the `Except` plumbing. -/
theorem ok_bind {ε α β : Type} (a : α) (f : α → Except ε β) :
    (Except.ok a >>= f : Except ε β) = f a := rfl

/-- Bind of a failure, for unfolding the `Except` plumbing. -/
theorem error_bind {ε α β : Type} (e : ε) (f : α → Except ε β) :
    ((Except.error e : Except ε α) >>= f) = .error e := rfl

/-- Dropping a column that both unequal column sets contain leaves them
unequal: a witness column present in one set and absent from the other cannot
be the dropped one, and survives the filter. -/
theorem colSetEq_filter_false (l1 l2 : List String)
    (h : colSetEq l1 l2 = false)
    (h1 : "activity_id" ∈ l1) (h2 : "activity_id" ∈ l2) :
    colSetEq (l1.filter (fun c2 => decide (c2 ≠ "activity_id")))
             (l2.filter (fun c2 => decide (c2 ≠ "activity_id"))) = false := by
  simp only [colSetEq, decide_eq_false_iff_not, not_and_or] at h ⊢
  rcases h with h | h
  · left
    push_neg at h
    obtain ⟨c, hc1, hc2⟩ := h
    push_neg
    refine ⟨c, ?_, fun hmem => hc2 (List.mem_of_mem_filter hmem)⟩
    rw [List.mem_filter]
    refine ⟨hc1, decide_eq_true ?_⟩
    intro hceq
    subst hceq
    exact hc2 h2
  · right
    push_neg at h
    obtain ⟨c, hc1, hc2⟩ := h
    push_neg
    refine ⟨c, ?_, fun hmem => hc2 (List.mem_of_mem_filter hmem)⟩
    rw [List.mem_filter]
    refine ⟨hc1, decide_eq_true ?_⟩
    intro hceq
    subst hceq
    exact hc2 h1

/-! ## Claim C1 -/

/-- C1 (code_bug evidence): the code does NOT compare rows under a canonical
alphabetical column ordering.  `sort_values(by=...)` sorts rows and never
reorders columns, and `tuple(row)` is formed in each frame's own column order.
Two one-row frames carrying the same (column ↦ value) data, with the columns
listed in opposite orders, therefore produce disjoint tuple sets: the full and
textual metrics return all-zero scores (and the relaxed metric does the same on
frames that also carry `activity_id`), while the identical-pair comparisons
return all-one scores.  The claim would require the differently-ordered pair to
score exactly like the identically-ordered pair. -/
theorem claim_C1_code_eval :
    dataframe_similiarity_full
        ⟨["a", "b"], [[Value.cell (Scalar.str "1"), Value.cell (Scalar.str "2")]]⟩
        ⟨["b", "a"], [[Value.cell (Scalar.str "2"), Value.cell (Scalar.str "1")]]⟩
      = .scores 0 0 0
  ∧ dataframe_similiarity_full
        ⟨["a", "b"], [[Value.cell (Scalar.str "1"), Value.cell (Scalar.str "2")]]⟩
        ⟨["a", "b"], [[Value.cell (Scalar.str "1"), Value.cell (Scalar.str "2")]]⟩
      = .scores 1 1 1
  ∧ dataframe_similiarity_textual
        ⟨["a", "b"], [[Value.cell (Scalar.str "1"), Value.cell (Scalar.str "2")]]⟩
        ⟨["b", "a"], [[Value.cell (Scalar.str "2"), Value.cell (Scalar.str "1")]]⟩
        (3/4)
      = .ok (.scores 0 0 0)
  ∧ dataframe_similarity_relaxed
        ⟨["activity_id", "x", "y"],
         [[Value.cell (Scalar.str "i"), Value.cell (Scalar.str "1"), Value.cell (Scalar.str "2")]]⟩
        ⟨["activity_id", "y", "x"],
         [[Value.cell (Scalar.str "i"), Value.cell (Scalar.str "2"), Value.cell (Scalar.str "1")]]⟩
      = .ok (.scores 0 0 0)
  ∧ dataframe_similarity_relaxed
        ⟨["activity_id", "x", "y"],
         [[Value.cell (Scalar.str "i"), Value.cell (Scalar.str "1"), Value.cell (Scalar.str "2")]]⟩
        ⟨["activity_id", "x", "y"],
         [[Value.cell (Scalar.str "i"), Value.cell (Scalar.str "1"), Value.cell (Scalar.str "2")]]⟩
      = .ok (.scores 1 1 1) := by
  with_unfolding_all decide

/-! ## Claim C2 -/

/-- Example frames for C2: same values, different column names, both carrying
`activity_id`. -/
def exC2df1 : DataFrame :=
  ⟨["activity_id", "a"], [[Value.cell (Scalar.str "1"), Value.cell (Scalar.str "2")]]⟩

/-- Second C2 example frame. -/
def exC2df2 : DataFrame :=
  ⟨["activity_id", "b"], [[Value.cell (Scalar.str "1"), Value.cell (Scalar.str "2")]]⟩

/-- C2 counterexample: on a pair whose column-name sets differ, the combined
`dataframe_similarity` entry point does NOT surface a non-numeric report — it
raises an unhandled `TypeError` (the nine-key dict literal subscripts the
mismatch string returned by the full metric). -/
theorem claim_C2_counterexample :
    dataframe_similarity exC2df1 exC2df2 = .error subscriptTypeErr
  ∧ subscriptTypeErr.name = "TypeError" := by
  with_unfolding_all decide

/-- C2 (amended): when the column-name sets differ, each individual metric
function surfaces the `SchemaMismatch` condition as the non-numeric string
report (the relaxed metric only after its mandatory `activity_id` drops
succeed), but the combined `dataframe_similarity` entry point then raises an
unhandled `TypeError` when it subscripts that string, instead of producing a
report. -/
theorem claim_C2_amended (df1 df2 : DataFrame)
    (h : sameColumnSet df1 df2 = false) :
    dataframe_similiarity_full df1 df2 = .strRes mismatchMsg
  ∧ dataframe_similiarity_textual df1 df2 (3/4) = .ok (.strRes mismatchMsg)
  ∧ ("activity_id" ∈ df1.cols → "activity_id" ∈ df2.cols →
      dataframe_similarity_relaxed df1 df2 = .ok (.strRes mismatchMsg)
    ∧ dataframe_similarity df1 df2 = .error subscriptTypeErr) := by
  have hful : dataframe_similiarity_full df1 df2 = .strRes mismatchMsg := by
    unfold dataframe_similiarity_full
    rw [h, if_pos rfl]
  have htex : dataframe_similiarity_textual df1 df2 (3/4) = .ok (.strRes mismatchMsg) := by
    unfold dataframe_similiarity_textual
    rw [h, if_pos rfl]
  refine ⟨hful, htex, fun h1 h2 => ?_⟩
  have hrel : dataframe_similarity_relaxed df1 df2 = .ok (.strRes mismatchMsg) := by
    unfold dataframe_similarity_relaxed
    unfold dropColumn
    rw [if_pos h1, if_pos h2]
    simp only [ok_bind]
    have hcols : sameColumnSet
        ⟨df1.cols.filter (fun c2 => decide (c2 ≠ "activity_id")),
         df1.rows.map (fun row =>
           ((df1.cols.zip row).filter (fun p => decide (p.1 ≠ "activity_id"))).map Prod.snd)⟩
        ⟨df2.cols.filter (fun c2 => decide (c2 ≠ "activity_id")),
         df2.rows.map (fun row =>
           ((df2.cols.zip row).filter (fun p => decide (p.1 ≠ "activity_id"))).map Prod.snd)⟩
        = false :=
      colSetEq_filter_false df1.cols df2.cols h h1 h2
    rw [hcols, if_pos rfl]
    rfl
  refine ⟨hrel, ?_⟩
  unfold dataframe_similarity
  rw [hrel]
  simp only [ok_bind, htex, hful]
  rfl

/-- C2 witness: the amended statement at the concrete example pair. -/
theorem claim_C2_witness :
    sameColumnSet exC2df1 exC2df2 = false
  ∧ dataframe_similiarity_full exC2df1 exC2df2 = .strRes mismatchMsg
  ∧ dataframe_similiarity_textual exC2df1 exC2df2 (3/4) = .ok (.strRes mismatchMsg)
  ∧ dataframe_similarity_relaxed exC2df1 exC2df2 = .ok (.strRes mismatchMsg)
  ∧ dataframe_similarity exC2df1 exC2df2 = .error subscriptTypeErr := by
  have h := claim_C2_amended exC2df1 exC2df2 (by decide)
  exact ⟨by decide, h.1, h.2.1, (h.2.2 (by decide) (by decide)).1,
         (h.2.2 (by decide) (by decide)).2⟩

/-! ## Claim C3 -/

/-- C3 example ground truth (two rows), as the orchestrator's first argument. -/
def exC3gt : DataFrame :=
  ⟨["a"], [[Value.cell (Scalar.str "1")], [Value.cell (Scalar.str "2")]]⟩

/-- C3 example predicted frame (one row, contained in the ground truth). -/
def exC3pr : DataFrame :=
  ⟨["a"], [[Value.cell (Scalar.str "1")]]⟩

set_option maxRecDepth 8000

/-- C3 counterexample: the orchestrator calls
`dataframe_similarity(df_true, predicted)`, so `df1` is the GROUND TRUTH.  On
this pair the intersection has 1 element and there are NO predicted-only rows,
so the claim's `precision = TP/(TP+FP)` with `FP = predicted-only` demands
precision 1; the code instead returns precision 1/2, because its
`fp = len(set_df1 - set_df2)` counts the truth-only rows (and symmetrically its
`fn` counts the predicted-only rows). -/
theorem claim_C3_counterexample :
    dataframe_similiarity_full exC3gt exC3pr = .scores (1/2) 1 (667/1000)
  ∧ (exC3gt.rows.toFinset ∩ exC3pr.rows.toFinset).card = 1
  ∧ (exC3pr.rows.toFinset \ exC3gt.rows.toFinset).card = 0
  ∧ (exC3gt.rows.toFinset \ exC3pr.rows.toFinset).card = 1
  ∧ ((1 : ℚ) / ((1 : ℚ) + (0 : ℚ)) ≠ 1/2) := by
  with_unfolding_all decide

/-- C3 (amended): for every column-compatible pair, in the orchestrator's
argument order (ground truth first): tp is the intersection size of the two
deduplicated row-tuple sets, the code's fp is the number of TRUTH-only rows and
its fn the number of PREDICTED-only rows (the reverse of the claim's roles),
and precision/recall/F1 follow the claimed guarded formulas on those counts,
rounded to three decimals. -/
theorem claim_C3_amended (gt pred : DataFrame)
    (h : sameColumnSet gt pred = true) :
    dataframe_similiarity_full gt pred =
      (let tp := (gt.rows.toFinset ∩ pred.rows.toFinset).card
       let fp := (gt.rows.toFinset \ pred.rows.toFinset).card
       let fn := (pred.rows.toFinset \ gt.rows.toFinset).card
       let p : ℚ := if 0 < tp + fp then (tp : ℚ) / ((tp : ℚ) + (fp : ℚ)) else 0
       let r : ℚ := if 0 < tp + fn then (tp : ℚ) / ((tp : ℚ) + (fn : ℚ)) else 0
       let f1 : ℚ := if 0 < p + r then 2 * (p * r) / (p + r) else 0
       MetricVal.scores (round3 p) (round3 r) (round3 f1)) := by
  unfold dataframe_similiarity_full
  rw [h, if_neg (by simp)]
  rw [rowSet_sortValues, rowSet_sortValues]
  rfl

/-- C3 witness: the amended statement at the concrete example pair. -/
theorem claim_C3_witness :
    sameColumnSet exC3gt exC3pr = true
  ∧ dataframe_similiarity_full exC3gt exC3pr =
      (let tp := (exC3gt.rows.toFinset ∩ exC3pr.rows.toFinset).card
       let fp := (exC3gt.rows.toFinset \ exC3pr.rows.toFinset).card
       let fn := (exC3pr.rows.toFinset \ exC3gt.rows.toFinset).card
       let p : ℚ := if 0 < tp + fp then (tp : ℚ) / ((tp : ℚ) + (fp : ℚ)) else 0
       let r : ℚ := if 0 < tp + fn then (tp : ℚ) / ((tp : ℚ) + (fn : ℚ)) else 0
       let f1 : ℚ := if 0 < p + r then 2 * (p * r) / (p + r) else 0
       MetricVal.scores (round3 p) (round3 r) (round3 f1)) :=
  ⟨by decide, claim_C3_amended exC3gt exC3pr (by decide)⟩

/-! ## Claim C4 -/

/-- C4 counterexample: two one-column frames whose single rows render to the
empty string.  The first label/pred pair has `max(len, len) = 0` and the
textual metric raises `ZeroDivisionError` — there is no guard, and the pair is
not scored as similarity 0. -/
theorem claim_C4_counterexample :
    dataframe_similiarity_textual
        ⟨["a"], [[Value.cell (Scalar.str "")]]⟩
        ⟨["a"], [[Value.cell (Scalar.str "")]]⟩
        (3/4)
      = .error zeroDivErr
  ∧ zeroDivErr.name = "ZeroDivisionError" := by
  with_unfolding_all decide

/-- C4 (amended): for every pair of rendered row strings with at least one of
them non-empty, the per-pair entry of `similarity_list` is
`edit_distance(label, pred) / max(len(label), len(pred))` (so the per-pair
similarity used by the loop is 1 minus that ratio); when BOTH strings are
empty, the division is NOT guarded: the entry raises `ZeroDivisionError`
instead of contributing a similarity of 0. -/
theorem claim_C4_amended :
    (∀ label pred : String, max label.length pred.length ≠ 0 →
      normalizedDistance label pred =
        .ok ((editDistance label.data pred.data : ℚ) /
             ((max label.length pred.length : ℕ) : ℚ)))
  ∧ (∀ label pred : String, max label.length pred.length = 0 →
      normalizedDistance label pred = .error zeroDivErr) := by
  constructor
  · intro label pred h
    unfold normalizedDistance
    rw [if_neg h]
    rfl
  · intro label pred h
    unfold normalizedDistance
    rw [if_pos h]

/-- C4 witness: the amended statement at concrete strings. -/
theorem claim_C4_witness :
    max ("ab" : String).length ("b" : String).length ≠ 0
  ∧ normalizedDistance "ab" "b" =
      .ok ((editDistance ("ab" : String).data ("b" : String).data : ℚ) /
           ((max ("ab" : String).length ("b" : String).length : ℕ) : ℚ))
  ∧ max ("" : String).length ("" : String).length = 0
  ∧ normalizedDistance "" "" = .error zeroDivErr :=
  ⟨by decide, claim_C4_amended.1 "ab" "b" (by decide),
   by decide, claim_C4_amended.2 "" "" (by decide)⟩

/-! ## Claim C5 -/

/-- The claim-side per-label score: the MAXIMUM similarity `1 - ratio` the
label achieves against any predicted row (equivalently, 1 minus the minimum
normalised edit distance).  Only used on non-empty prediction lists. -/
def bestSimilarity (label : String) : List String → ℚ
  | [] => 0
  | p :: ps =>
    (ps.map (fun pr => 1 - normalizedRatio label pr)).foldl max
      (1 - normalizedRatio label p)

/-- One minus a minimum is the maximum of one minus each element. -/
theorem one_sub_min (a b c : ℚ) : a - min b c = max (a - b) (a - c) := by
  rcases le_total b c with h | h
  · rw [min_eq_left h, max_eq_left (by linarith)]
  · rw [min_eq_right h, max_eq_right (by linarith)]

/-- Fold form of `one_sub_min` over a whole list. -/
theorem one_sub_foldl_min (xs : List ℚ) :
    ∀ m : ℚ, 1 - xs.foldl min m = (xs.map (fun x => 1 - x)).foldl max (1 - m) := by
  induction xs with
  | nil => intro m; simp
  | cons x xs ih =>
    intro m
    rw [List.foldl_cons, List.map_cons, List.foldl_cons, ih, one_sub_min]

/-- When no compared pair divides by zero, `similarity_list` is the plain list
of normalised distances. -/
theorem mapM_normalizedDistance (label : String) :
    ∀ preds : List String, (∀ p ∈ preds, max label.length p.length ≠ 0) →
    preds.mapM (fun pred => normalizedDistance label pred) =
      .ok (preds.map (normalizedRatio label)) := by
  intro preds
  induction preds with
  | nil => intro _; rfl
  | cons p ps ih =>
    intro hz
    rw [List.mapM_cons]
    have h1 : normalizedDistance label p = .ok (normalizedRatio label p) := by
      unfold normalizedDistance
      rw [if_neg (hz p (by simp))]
    rw [h1, ok_bind, ih (fun q hq => hz q (by simp [hq])), ok_bind]
    rfl

/-- One iteration of the label loop, evaluated: with a non-empty prediction
list and no zero-length pair, the label bumps tp exactly when its best
similarity reaches the threshold, and fp otherwise. -/
theorem textualStep_eval (preds : List String) (threshold : ℚ) (label : String)
    (acc : ℕ × ℕ) (hne : preds ≠ [])
    (hz : ∀ p ∈ preds, max label.length p.length ≠ 0) :
    textualStep preds threshold acc label =
      .ok (if threshold ≤ bestSimilarity label preds then (acc.1 + 1, acc.2)
           else (acc.1, acc.2 + 1)) := by
  obtain ⟨p, ps, rfl⟩ := List.exists_cons_of_ne_nil hne
  unfold textualStep
  rw [mapM_normalizedDistance label _ hz, ok_bind, List.map_cons]
  have hmin : pyMinList (normalizedRatio label p :: ps.map (normalizedRatio label)) =
      .ok ((ps.map (normalizedRatio label)).foldl min (normalizedRatio label p)) := rfl
  rw [hmin, ok_bind]
  have hbest : 1 - (ps.map (normalizedRatio label)).foldl min (normalizedRatio label p) =
      bestSimilarity label (p :: ps) := by
    rw [one_sub_foldl_min, List.map_map]
    rfl
  rw [hbest]
  by_cases hθ : threshold ≤ bestSimilarity label (p :: ps)
  · rw [if_pos hθ, if_pos hθ]
    rfl
  · rw [if_neg hθ, if_neg hθ]
    rfl

/-- The whole label loop, evaluated: tp counts the labels whose best similarity
reaches the threshold, fp counts the rest. -/
theorem textualFold_eval (preds : List String) (threshold : ℚ) (hne : preds ≠ []) :
    ∀ labels : List String,
    (∀ l ∈ labels, ∀ p ∈ preds, max l.length p.length ≠ 0) →
    ∀ a b : ℕ,
    labels.foldlM (textualStep preds threshold) (a, b) =
      .ok (a + labels.countP (fun l => decide (threshold ≤ bestSimilarity l preds)),
           b + labels.countP (fun l => !decide (threshold ≤ bestSimilarity l preds))) := by
  intro labels
  induction labels with
  | nil => intro _ a b; simp [List.foldlM]; rfl
  | cons l ls ih =>
    intro hz a b
    rw [List.foldlM_cons,
        textualStep_eval preds threshold l (a, b) hne (hz l (by simp)), ok_bind]
    by_cases hθ : threshold ≤ bestSimilarity l preds
    · rw [if_pos hθ, ih (fun x hx => hz x (by simp [hx])) (a + 1) b]
      refine congrArg Except.ok ?_
      refine Prod.ext ?_ ?_ <;> (simp [List.countP_cons, hθ]; try omega)
    · rw [if_neg hθ, ih (fun x hx => hz x (by simp [hx])) a (b + 1)]
      refine congrArg Except.ok ?_
      refine Prod.ext ?_ ?_ <;> (simp [List.countP_cons, hθ]; try omega)

/-- C5 counterexample: with one label row and NO predicted rows, the claimed
counting (best-match below any threshold, so tp = 0, fp = 1,
fn = max(1,0) − 0 = 1, all scores 0) does not happen: `min([])` raises
`ValueError`, so the textual metric produces no counts at all. -/
theorem claim_C5_counterexample :
    dataframe_similiarity_textual
        ⟨["a"], [[Value.cell (Scalar.str "x")]]⟩
        ⟨["a"], []⟩
        (3/4)
      = .error minEmptyErr
  ∧ minEmptyErr.name = "ValueError" := by
  with_unfolding_all decide

/-- C5 (amended): for every column-compatible pair whose rows render to the
string sequences `labels` and `preds`, PROVIDED `preds` is non-empty and no
label/pred pair is simultaneously empty: each label counts as a true positive
iff its maximum similarity over all predicted rows is at least the threshold,
and as a false positive otherwise — with no one-to-one matching enforced (the
per-label score `bestSimilarity` is computed independently against ALL
predicted rows); false negatives equal `max(len(labels), len(preds))` minus the
true positives; and precision/recall/F1 follow the guarded formulas, rounded.
(Without the provisos the loop raises: `ValueError` on empty `preds`,
`ZeroDivisionError` on an empty pair — see the counterexample.) -/
theorem claim_C5_amended (df1 df2 : DataFrame) (threshold : ℚ)
    (labels preds : List String)
    (h : sameColumnSet df1 df2 = true)
    (hl : (sortValues df1 df1.cols).rows.mapM joinCells = .ok labels)
    (hp : (fillNa (sortValues df2 df1.cols)).rows.mapM joinCells = .ok preds)
    (hne : preds ≠ [])
    (hz : ∀ l ∈ labels, ∀ p ∈ preds, max l.length p.length ≠ 0) :
    dataframe_similiarity_textual df1 df2 threshold =
      .ok (let tp := labels.countP
              (fun l => decide (threshold ≤ bestSimilarity l preds))
           let fp := labels.countP
              (fun l => !decide (threshold ≤ bestSimilarity l preds))
           let fn := max labels.length preds.length - tp
           let p : ℚ := if 0 < tp + fp then (tp : ℚ) / ((tp : ℚ) + (fp : ℚ)) else 0
           let r : ℚ := if 0 < tp + fn then (tp : ℚ) / ((tp : ℚ) + (fn : ℚ)) else 0
           let f1 : ℚ := if 0 < p + r then 2 * (p * r) / (p + r) else 0
           MetricVal.scores (round3 p) (round3 r) (round3 f1)) := by
  unfold dataframe_similiarity_textual
  rw [h, if_neg (by simp)]
  unfold textualBody
  rw [hl, ok_bind, hp, ok_bind,
      textualFold_eval preds threshold hne labels hz 0 0, ok_bind]
  simp only [Nat.zero_add]
  rfl

/-- C5 witness: the amended statement at a concrete pair (one label `"ab"`,
predictions `["ab", "zz"]`; the first prediction matches exactly, the second
does not). -/
theorem claim_C5_witness :
    dataframe_similiarity_textual
        ⟨["a"], [[Value.cell (Scalar.str "ab")]]⟩
        ⟨["a"], [[Value.cell (Scalar.str "ab")], [Value.cell (Scalar.str "zz")]]⟩
        (3/4)
      = .ok (let tp := (["ab"] : List String).countP
                (fun l => decide ((3/4 : ℚ) ≤ bestSimilarity l ["ab", "zz"]))
             let fp := (["ab"] : List String).countP
                (fun l => !decide ((3/4 : ℚ) ≤ bestSimilarity l ["ab", "zz"]))
             let fn := max (["ab"] : List String).length
                (["ab", "zz"] : List String).length - tp
             let p : ℚ := if 0 < tp + fp then (tp : ℚ) / ((tp : ℚ) + (fp : ℚ)) else 0
             let r : ℚ := if 0 < tp + fn then (tp : ℚ) / ((tp : ℚ) + (fn : ℚ)) else 0
             let f1 : ℚ := if 0 < p + r then 2 * (p * r) / (p + r) else 0
             MetricVal.scores (round3 p) (round3 r) (round3 f1)) :=
  claim_C5_amended
    ⟨["a"], [[Value.cell (Scalar.str "ab")]]⟩
    ⟨["a"], [[Value.cell (Scalar.str "ab")], [Value.cell (Scalar.str "zz")]]⟩
    (3/4) ["ab"] ["ab", "zz"]
    (by decide) (by decide) (by decide) (by decide)
    (by with_unfolding_all decide)

/-! ## Claim C6 -/

/-- C6 counterexample: on a pair of frames without an `activity_id` column the
relaxed metric raises an unhandled `KeyError` from `df.drop` — it does not
surface the `SchemaMismatch` condition as the non-numeric report the other
guard failures produce, and the exception escapes the metric. -/
theorem claim_C6_counterexample :
    dataframe_similarity_relaxed ⟨["a"], []⟩ ⟨["a"], []⟩
      = .error (keyErr "activity_id")
  ∧ (keyErr "activity_id").name = "KeyError"
  ∧ dataframe_similiarity_full ⟨["a"], []⟩ ⟨["a"], []⟩ = .scores 0 0 0 := by
  with_unfolding_all decide

/-- C6 (amended): whenever `activity_id` is absent from either input frame, the
relaxed metric raises `KeyError` (from the unguarded `df.drop` on whichever
frame lacks it, the first frame being dropped first) — it does not compute a
score, but neither does it surface a handled `SchemaMismatch` report: the
exception propagates to the caller. -/
theorem claim_C6_amended (df1 df2 : DataFrame)
    (h : "activity_id" ∉ df1.cols ∨ "activity_id" ∉ df2.cols) :
    dataframe_similarity_relaxed df1 df2 = .error (keyErr "activity_id") := by
  unfold dataframe_similarity_relaxed
  by_cases h1 : "activity_id" ∈ df1.cols
  · have h2 : "activity_id" ∉ df2.cols := by
      rcases h with hc | hc
      · exact absurd h1 hc
      · exact hc
    unfold dropColumn
    rw [if_pos h1, ok_bind, if_neg h2]
    rfl
  · unfold dropColumn
    rw [if_neg h1]
    rfl

/-- C6 witness: the amended statement at a concrete pair lacking the column. -/
theorem claim_C6_witness :
    ("activity_id" ∉ (⟨["a"], []⟩ : DataFrame).cols
      ∨ "activity_id" ∉ (⟨["b"], []⟩ : DataFrame).cols)
  ∧ dataframe_similarity_relaxed ⟨["a"], []⟩ ⟨["b"], []⟩
      = .error (keyErr "activity_id") :=
  ⟨by decide, claim_C6_amended ⟨["a"], []⟩ ⟨["b"], []⟩ (by decide)⟩

/-! ## Claim C7 -/

/-- Bind of a `pure`, for unfolding the `Except` plumbing. -/
theorem pure_bind_ex {ε α β : Type} (a : α) (f : α → Except ε β) :
    ((pure a : Except ε α) >>= f) = f a := rfl

/-- C7 example ground truth. -/
def exC7gt : DataFrame :=
  ⟨["activity_id", "a"], [[Value.cell (Scalar.str "1"), Value.cell (Scalar.str "2")]]⟩

/-- C7 example state after a SUCCESSFUL execution whose result frame has a
column set different from the ground truth's. -/
def exC7state : AgentState :=
  ⟨["m"], some "resp",
   some (.df ⟨["activity_id", "b"], [[Value.cell (Scalar.str "3"), Value.cell (Scalar.str "4")]]⟩),
   none⟩

/-- C7 counterexample: an execution that SUCCEEDS does not always give the full
nine-metric report — when the result frame's columns differ from the ground
truth's, the scoring step raises an unhandled `TypeError` out of
`dataframe_similarity` instead of producing a report. -/
theorem claim_C7_counterexample :
    calculate_metrics exC7gt exC7state = .error subscriptTypeErr := by
  with_unfolding_all decide

/-- C7 (amended): for every query whose execution raises, the executor stores
the failure outcome `"SQL_ERROR: {class}: {message}"` (a non-empty string) and
propagates no exception, and the scoring step then stores the empty report `{}`
(not an all-zero report); for every execution that succeeds AND whose result
frame the similarity computation scores without raising, the scoring step
stores the full nine-key report.  (A successful execution whose frame the
similarity computation cannot score raises out of the scoring step — see the
counterexample.) -/
theorem claim_C7_amended :
    (∀ (db : String → Except PyExn DataFrame) (st : AgentState) (ar : String)
       (e : PyExn), st.agent_response = some ar →
       db (extract_sql_statement ar) = .error e →
       run_sql_query db st =
         .ok { st with sqlexecuter := some (.errStr (sqlErrorString e)) }
     ∧ sqlErrorString e ≠ "")
  ∧ (∀ (gt : DataFrame) (st : AgentState) (s : String),
       st.sqlexecuter = some (.errStr s) →
       calculate_metrics gt st = .ok { st with result := some .empty })
  ∧ (∀ (gt : DataFrame) (st : AgentState) (d : DataFrame) (r : Report),
       st.sqlexecuter = some (.df d) →
       dataframe_similarity gt d = .ok r →
       calculate_metrics gt st = .ok { st with result := some (.full r) }) := by
  refine ⟨fun db st ar e har hdb => ⟨?_, ?_⟩, fun gt st s hst => ?_,
          fun gt st d r hst hsim => ?_⟩
  · unfold run_sql_query
    simp only [har, pure_bind, hdb]
    rfl
  · intro hc
    have h2 := congrArg String.length hc
    rw [sqlErrorString] at h2
    simp only [String.length_append] at h2
    have h3 : ("SQL_ERROR: " : String).length = 11 := rfl
    have h4 : (": " : String).length = 2 := rfl
    have h5 : ("" : String).length = 0 := rfl
    omega
  · unfold calculate_metrics
    simp only [hst, pure_bind]
    rfl
  · unfold calculate_metrics
    simp only [hst, pure_bind, hsim, ok_bind]
    rfl

/-- C7's concrete failure exception. -/
def exC7exn : PyExn := ⟨"OperationalError", "near SELEKT: syntax error"⟩

/-- C7 example state holding the model response, before execution. -/
def exC7pre : AgentState := ⟨["m"], some "SELEKT * FORM t", none, none⟩

/-- C7 example state after a FAILED execution. -/
def exC7err : AgentState :=
  ⟨["m"], some "SELEKT * FORM t", some (.errStr "SQL_ERROR: E: x"), none⟩

/-- C7 example state after a successful execution whose frame equals the
ground truth. -/
def exC7same : AgentState := ⟨["m"], some "resp", some (.df exC7gt), none⟩

/-- C7 witness: the amended statement at concrete inputs — a failing execution
stores the tagged non-empty error string, the scoring step maps an error string
to the empty report, and scoring a bindable success stores the full report. -/
theorem claim_C7_witness :
    run_sql_query (fun _ => .error exC7exn) exC7pre =
      .ok { exC7pre with sqlexecuter := some (.errStr (sqlErrorString exC7exn)) }
  ∧ sqlErrorString exC7exn ≠ ""
  ∧ calculate_metrics exC7gt exC7err = .ok { exC7err with result := some .empty }
  ∧ calculate_metrics exC7gt exC7same =
      .ok { exC7same with result := some (.full ⟨1, 1, 1, 1, 1, 1, 1, 1, 1⟩) } :=
  ⟨(claim_C7_amended.1 (fun _ => .error exC7exn) exC7pre "SELEKT * FORM t" exC7exn
      rfl rfl).1,
   (claim_C7_amended.1 (fun _ => .error exC7exn) exC7pre "SELEKT * FORM t" exC7exn
      rfl rfl).2,
   claim_C7_amended.2.1 exC7gt exC7err "SQL_ERROR: E: x" rfl,
   claim_C7_amended.2.2 exC7gt exC7same exC7gt ⟨1, 1, 1, 1, 1, 1, 1, 1, 1⟩ rfl
     (by with_unfolding_all decide)⟩

/-! ## Claim C8 -/

/-- C8 counterexample: a run in which the query executes successfully but the
result frame's column set differs from the ground truth's.  The orchestrator
does NOT reach the terminal state with a report: the scoring step's `TypeError`
propagates out of `invoke` to the caller. -/
theorem claim_C8_counterexample :
    invoke (fun _ => "SELEKT * FORM t")
        (fun _ => .ok ⟨["activity_id", "b"],
            [[Value.cell (Scalar.str "3"), Value.cell (Scalar.str "4")]]⟩)
        exC7gt
        ⟨["give me sql"], none, none, none⟩
      = .error subscriptTypeErr := by
  with_unfolding_all decide

/-- C8 (amended): for every input with a non-empty message list, the
orchestrator reaches the terminal state carrying the EMPTY report whenever the
query execution fails, and carrying the FULL report whenever the execution
succeeds and the similarity computation scores the result without raising; in
those cases it raises nothing.  (When the similarity computation raises — e.g.
on a column-set mismatch with the ground truth — the exception propagates to
`invoke`'s caller: see the counterexample.) -/
theorem claim_C8_amended (llm : String → String)
    (db : String → Except PyExn DataFrame) (gt : DataFrame) (st : AgentState)
    (u : String) (hu : st.messages.getLast? = some u) :
    (∀ e, db (extract_sql_statement (llm u)) = .error e →
      invoke llm db gt st =
        .ok { st with agent_response := some (llm u),
                      sqlexecuter := some (.errStr (sqlErrorString e)),
                      result := some .empty })
  ∧ (∀ d r, db (extract_sql_statement (llm u)) = .ok d →
      dataframe_similarity gt d = .ok r →
      invoke llm db gt st =
        .ok { st with agent_response := some (llm u),
                      sqlexecuter := some (.df d),
                      result := some (.full r) }) := by
  have hget : get_sql_query llm st = .ok { st with agent_response := some (llm u) } := by
    unfold get_sql_query
    rw [hu]
  constructor
  · intro e he
    unfold invoke
    rw [hget, ok_bind]
    have hrun : run_sql_query db { st with agent_response := some (llm u) } =
        .ok { st with agent_response := some (llm u),
                      sqlexecuter := some (.errStr (sqlErrorString e)) } := by
      unfold run_sql_query
      simp only [pure_bind, he]
      rfl
    rw [hrun, ok_bind]
    unfold calculate_metrics
    simp only [pure_bind]
    rfl
  · intro d r hd hr
    unfold invoke
    rw [hget, ok_bind]
    have hrun : run_sql_query db { st with agent_response := some (llm u) } =
        .ok { st with agent_response := some (llm u),
                      sqlexecuter := some (.df d) } := by
      unfold run_sql_query
      simp only [pure_bind, hd]
      rfl
    rw [hrun, ok_bind]
    unfold calculate_metrics
    simp only [pure_bind, hr, ok_bind]
    rfl

/-- C8 witness: the amended statement at a concrete failing execution — the run
terminates with the empty report and no exception. -/
theorem claim_C8_witness :
    invoke (fun _ => "SELEKT * FORM t") (fun _ => .error exC7exn) exC7gt
        ⟨["give me sql"], none, none, none⟩
      = .ok ⟨["give me sql"], some "SELEKT * FORM t",
             some (.errStr (sqlErrorString exC7exn)), some .empty⟩ :=
  (claim_C8_amended (fun _ => "SELEKT * FORM t") (fun _ => .error exC7exn) exC7gt
      ⟨["give me sql"], none, none, none⟩ "give me sql" rfl).1 exC7exn rfl

/-! ## Claim C9 -/

/-- Every keyword of the pattern is a non-empty string. -/
theorem sqlKeywords_ne_nil : ∀ kw ∈ sqlKeywords, kw.data ≠ [] := by decide

/-- Past the end of the text no alternative can match. -/
theorem keywordHitAt_none_of_le (t : List Char) (p : ℕ) (hp : t.length ≤ p) :
    keywordHitAt t p = none := by
  unfold keywordHitAt
  rw [List.findSome?_eq_none_iff]
  intro kw hkw
  have hm : matchKeywordAt t p kw = false := by
    unfold matchKeywordAt
    rw [List.drop_eq_nil_of_le hp]
    obtain ⟨c, cs, hcs⟩ := List.exists_cons_of_ne_nil (sqlKeywords_ne_nil kw hkw)
    rw [hcs]
    rfl
  rw [hm]
  rfl

/-- When no position hits, the scan returns `none`. -/
theorem searchSql_none (t : List Char) (hall : ∀ q, keywordHitAt t q = none) :
    ∀ fuel p, searchSql t p fuel = none := by
  intro fuel
  induction fuel with
  | zero => intro p; rfl
  | succ f ih =>
    intro p
    unfold searchSql
    rw [hall p]
    exact ih (p + 1)

/-- The scan finds the LEFTMOST hitting position, and reports the semicolon
index that the alternation yields there. -/
theorem searchSql_found (t : List Char) :
    ∀ (fuel p pm k q : ℕ), pm < p + fuel → p ≤ pm →
    keywordHitAt t pm = some (k, q) →
    (∀ j, p ≤ j → j < pm → keywordHitAt t j = none) →
    searchSql t p fuel = some (pm, q) := by
  intro fuel
  induction fuel with
  | zero =>
    intro p pm k q hlt hle _ _
    omega
  | succ f ih =>
    intro p pm k q hlt hle hhit hmin
    unfold searchSql
    rcases Nat.eq_or_lt_of_le hle with heq | hlt2
    · subst heq
      rw [hhit]
    · have hnone : keywordHitAt t p = none := hmin p (Nat.le_refl p) hlt2
      rw [hnone]
      exact ih (p + 1) pm k q (by omega) (by omega) hhit
        (fun j h1 h2 => hmin j (by omega) h2)

/-- C9: the extractor behaves exactly as claimed.  (i) Whenever the regex
alternation hits at some position `pm` — a recognised keyword matches there
case-insensitively as a whole token (trailing word boundary) with a terminating
`;` at index `q` at-or-after its end, dot matching newlines — and no earlier
position hits, the extractor returns the substring from `pm` through that first
`;` inclusive.  (ii) When no position hits, it returns the input text unchanged
(and, being a total function, it never raises).  (iii) The spec's example:
`"blah blah SELECT * FROM t WHERE x=1; trailing"` yields exactly
`"SELECT * FROM t WHERE x=1;"`, and a keyword-free input comes back unchanged. -/
theorem claim_C9_extractor :
    (∀ (s : String) (pm k q : ℕ), keywordHitAt s.data pm = some (k, q) →
      (∀ j, j < pm → keywordHitAt s.data j = none) →
      extract_sql_statement s = String.mk ((s.data.drop pm).take (q + 1 - pm)))
  ∧ (∀ s : String, (∀ j, keywordHitAt s.data j = none) →
      extract_sql_statement s = s)
  ∧ extract_sql_statement "blah blah SELECT * FROM t WHERE x=1; trailing"
      = "SELECT * FROM t WHERE x=1;"
  ∧ extract_sql_statement "no query here" = "no query here" := by
  refine ⟨?_, ?_, by decide, by decide⟩
  · intro s pm k q hhit hmin
    have hpm : pm ≤ s.data.length := by
      by_contra hgt
      push_neg at hgt
      rw [keywordHitAt_none_of_le s.data pm (Nat.le_of_lt hgt)] at hhit
      cases hhit
    unfold extract_sql_statement
    rw [searchSql_found s.data (s.data.length + 1) 0 pm k q (by omega)
        (Nat.zero_le pm) hhit (fun j _ h2 => hmin j h2)]
  · intro s hall
    unfold extract_sql_statement
    rw [searchSql_none s.data hall (s.data.length + 1) 0]

/-- C9 witness: part (i) of the theorem at a concrete input — the alternation
hits first at position 3 (`SELECT`, length 6, terminating `;` at index 11), so
the extractor returns characters 3 through 11, `"SELECT 1;"`. -/
theorem claim_C9_witness :
    extract_sql_statement "ok SELECT 1; x" = "SELECT 1;" := by
  have h := claim_C9_extractor.1 "ok SELECT 1; x" 3 6 11 (by decide)
    (by intro j hj; interval_cases j <;> rfl)
  exact h

/-! ## Claim C10 -/

/-- The full metric's heap replay writes only to fresh addresses. -/
theorem full_heap_preserves (h : Heap) (fresh r1 r2 i : ℕ) (hi : i < fresh) :
    (dataframe_similiarity_full_heap h fresh r1 r2).1 i = h i := by
  have n1 : i ≠ fresh := by omega
  have n2 : i ≠ fresh + 1 := by omega
  unfold dataframe_similiarity_full_heap
  split
  · rfl
  · dsimp only
    rw [Heap.write_ne _ _ _ _ n2, Heap.write_ne _ _ _ _ n1,
        Heap.write_ne _ _ _ _ n2, Heap.write_ne _ _ _ _ n1]

/-- The relaxed metric's heap replay writes only to fresh addresses. -/
theorem relaxed_heap_preserves (h : Heap) (fresh r1 r2 i : ℕ) (hi : i < fresh) :
    (dataframe_similarity_relaxed_heap h fresh r1 r2).1 i = h i := by
  have n1 : i ≠ fresh := by omega
  have n2 : i ≠ fresh + 1 := by omega
  have n3 : i ≠ fresh + 2 := by omega
  have n4 : i ≠ fresh + 3 := by omega
  unfold dataframe_similarity_relaxed_heap
  split
  · rfl
  · try dsimp only
    split
    · try dsimp only
      rw [Heap.write_ne _ _ _ _ n1]
    · try dsimp only
      split
      · try dsimp only
        rw [Heap.write_ne _ _ _ _ n2, Heap.write_ne _ _ _ _ n1]
      · try dsimp only
        rw [Heap.write_ne _ _ _ _ n4, Heap.write_ne _ _ _ _ n3,
            Heap.write_ne _ _ _ _ n4, Heap.write_ne _ _ _ _ n3,
            Heap.write_ne _ _ _ _ n2, Heap.write_ne _ _ _ _ n1]

/-- The textual metric's heap replay writes only to fresh addresses. -/
theorem textual_heap_preserves (h : Heap) (fresh r1 r2 i : ℕ) (θ : ℚ)
    (hi : i < fresh) :
    (dataframe_similiarity_textual_heap h fresh r1 r2 θ).1 i = h i := by
  have n1 : i ≠ fresh := by omega
  have n2 : i ≠ fresh + 1 := by omega
  unfold dataframe_similiarity_textual_heap
  split
  · rfl
  · dsimp only
    rw [Heap.write_ne _ _ _ _ n2, Heap.write_ne _ _ _ _ n2,
        Heap.write_ne _ _ _ _ n1]

/-- C10: each of the three similarity functions leaves the caller's two frame
objects unchanged.  In the heap replay of the source, the internally added
`combined` column, the `activity_id` drops, and the in-place `fillna` are all
applied to freshly allocated copies (the results of `sort_values` /
`reset_index` / `drop`, or the copies the locals were rebound to), never to the
objects the caller passed in — so reading the caller's references after any of
the three calls yields exactly the frames they held before. -/
theorem claim_C10_frames :
    ∀ (h : Heap) (fresh r1 r2 : ℕ), r1 < fresh → r2 < fresh →
      ((dataframe_similiarity_full_heap h fresh r1 r2).1 r1 = h r1
        ∧ (dataframe_similiarity_full_heap h fresh r1 r2).1 r2 = h r2)
    ∧ ((dataframe_similarity_relaxed_heap h fresh r1 r2).1 r1 = h r1
        ∧ (dataframe_similarity_relaxed_heap h fresh r1 r2).1 r2 = h r2)
    ∧ (∀ θ : ℚ, (dataframe_similiarity_textual_heap h fresh r1 r2 θ).1 r1 = h r1
        ∧ (dataframe_similiarity_textual_heap h fresh r1 r2 θ).1 r2 = h r2) :=
  fun h fresh r1 r2 h1 h2 =>
    ⟨⟨full_heap_preserves h fresh r1 r2 r1 h1,
      full_heap_preserves h fresh r1 r2 r2 h2⟩,
     ⟨relaxed_heap_preserves h fresh r1 r2 r1 h1,
      relaxed_heap_preserves h fresh r1 r2 r2 h2⟩,
     fun θ =>
       ⟨textual_heap_preserves h fresh r1 r2 r1 θ h1,
        textual_heap_preserves h fresh r1 r2 r2 θ h2⟩⟩

/-- C10 example heap: every address holds the same one-column frame. -/
def exC10heap : Heap := fun _ =>
  ⟨["activity_id"], [[Value.cell (Scalar.str "a1")]]⟩

/-- C10 witness: the frame claim at a concrete heap with the caller's frames at
addresses 0 and 1 and the allocation counter at 2. -/
theorem claim_C10_witness :
    (0 : ℕ) < 2 ∧ (1 : ℕ) < 2
  ∧ (dataframe_similiarity_full_heap exC10heap 2 0 1).1 0 = exC10heap 0
  ∧ (dataframe_similiarity_full_heap exC10heap 2 0 1).1 1 = exC10heap 1
  ∧ (dataframe_similarity_relaxed_heap exC10heap 2 0 1).1 0 = exC10heap 0
  ∧ (dataframe_similarity_relaxed_heap exC10heap 2 0 1).1 1 = exC10heap 1
  ∧ (dataframe_similiarity_textual_heap exC10heap 2 0 1 (3/4)).1 0 = exC10heap 0
  ∧ (dataframe_similiarity_textual_heap exC10heap 2 0 1 (3/4)).1 1 = exC10heap 1 :=
  have hc := claim_C10_frames exC10heap 2 0 1 (by decide) (by decide)
  ⟨by decide, by decide, hc.1.1, hc.1.2, hc.2.1.1, hc.2.1.2,
   (hc.2.2 (3/4)).1, (hc.2.2 (3/4)).2⟩

end SqlEval
